import Mathlib

/-!
Shallow embedding of the pipeline orchestration code in
src/pipeline/dagster_pipeline.py of the Medical-telegram-warehouse
repository, together with theorems settling the specification claims
about it.

Modelling conventions:
* Each Dagster op is translated as a pure Lean function from the observable
  behaviour of its external collaborators (does the scraper raise, how many
  rows the loader reports, the dbt test results, and so on) to either
  `Except.error msg` (the op raised `Failure(msg)`) or the pair of the list
  of `AssetMaterialization` events it yielded and the dict it returned.
* Python dicts returned by the ops are translated as structures whose fields
  are the dict keys; timestamp-valued metadata entries are not modelled.
  The severity metadata entry of the notification materialization is
  modelled because claims refer to it.
* The linear job `medical_telegram_pipeline` is translated as `pipelineRun`,
  driving the six ops in dependency order through the retry executor; a
  fatal (raised) failure stops the run, exactly as a raised Dagster
  `Failure` fails the op and skips every downstream op of the linear chain.
* The retry loop itself is executed by the Dagster framework and is not in
  src/; it is modelled from the spec contract (see `retryGo`).
-/

/-- Materialization Record: one yielded AssetMaterialization. Only the asset
key and (for the notification record) the severity metadata entry are
modelled; other metadata entries are timestamps and counters that no claim
refers to. -/
structure Materialization where
  asset_key : String
  severity : Option String := none
deriving DecidableEq, Repr

/-- Dict returned by scrape_telegram_data on success
(src/pipeline/dagster_pipeline.py lines 104-108, date field omitted). -/
structure ScrapeResult where
  status : String
  files_created : Nat
deriving DecidableEq, Repr

/-- Dict returned by load_raw_to_postgres on success (lines 167-171). -/
structure LoadResult where
  status : String
  rows_loaded : Nat
  table : String
deriving DecidableEq, Repr

/-- One dbt test result as consumed at lines 197-200: the node name and the
status string compared against "pass". -/
structure DbtTestRes where
  node_name : String
  status : String
deriving DecidableEq, Repr

/-- Dict returned by run_dbt_transformations on success (lines 218-222). -/
structure DbtResult where
  status : String
  models_built : List String
  tests_passed : Nat
deriving DecidableEq, Repr

/-- Dict returned by run_yolo_enrichment (lines 275-285): either the success
shape with images_analyzed, or the skipped shape with a reason. The
categories counter is not modelled (no claim refers to it). -/
structure YoloResult where
  status : String
  images_analyzed : Option Nat := none
  reason : Option String := none
deriving DecidableEq, Repr

/-- Dict returned by refresh_api_cache (lines 321-334): success shape or the
failed shape produced by the exception handler. -/
structure CacheResult where
  status : String
  cache_refreshed : Option Bool := none
  error : Option String := none
deriving DecidableEq, Repr

/-- statistics block of the run summary (lines 393-397). -/
structure SummaryStatistics where
  messages_processed : Nat
  images_analyzed : Nat
  dbt_tests_passed : Nat
deriving DecidableEq, Repr

/-- components block of the run summary (lines 398-404). -/
structure SummaryComponents where
  scraping : String
  loading : String
  dbt : String
  enrichment : String
  api_cache : String
deriving DecidableEq, Repr

/-- Run summary dict built at lines 388-405 (run id and timestamps
omitted). -/
structure RunSummary where
  status : String
  failures : List String
  statistics : SummaryStatistics
  components : SummaryComponents
deriving DecidableEq, Repr

/-- Value returned by send_pipeline_notification: the run summary (line 418)
or, if anything in its body raised, the notification_failed dict built by the
exception handler (lines 423-426). -/
inductive NotifyOutput where
  | summary (s : RunSummary)
  | notificationFailed (error : String)
deriving DecidableEq, Repr

/-- scrape_telegram_data (lines 57-117). External behaviour: whether
scraper.run() (or anything else in the try body before the directory check)
raised, whether the directory for today exists, and how many json files it
holds. An inner Failure for a missing directory is caught by the outer
handler and re-wrapped, exactly as at lines 110 and 115-117. -/
def scrape_telegram_data (scraper_error : Option String) (today_dir_exists : Bool)
    (json_file_count : Nat) : Except String (List Materialization × ScrapeResult) :=
  match scraper_error with
  | some e => .error ("Telegram scraping failed: " ++ e)
  | none =>
    if today_dir_exists then
      .ok ([{ asset_key := "telegram_raw_data" }],
        { status := "success", files_created := json_file_count })
    else
      .error "Telegram scraping failed: No data files created during scraping"

/-- load_raw_to_postgres (lines 119-175). External behaviour: whether the
loader or the row-count query raised, and the row count reported. The
scrape_result input is a pure dependency edge, unused in the body. -/
def load_raw_to_postgres (loader_error : Option String) (row_count : Nat)
    (scrape_result : ScrapeResult) : Except String (List Materialization × LoadResult) :=
  match loader_error with
  | some e => .error ("PostgreSQL loading failed: " ++ e)
  | none =>
    .ok ([{ asset_key := "postgres_raw_data" }],
      { status := "success", rows_loaded := row_count, table := "raw.telegram_messages" })

/-- run_dbt_transformations (lines 177-226). External behaviour: whether
dbt run itself raised, and the list of test results; any test whose status
is not "pass" makes the op raise Failure (lines 197-201), re-wrapped by the
outer handler (lines 224-226). -/
def run_dbt_transformations (dbt_error : Option String) (test_results : List DbtTestRes)
    (load_result : LoadResult) : Except String (List Materialization × DbtResult) :=
  match dbt_error with
  | some e => .error ("dbt transformation failed: " ++ e)
  | none =>
    let failures := test_results.filter (fun r => r.status != "pass")
    if failures.isEmpty then
      .ok ([{ asset_key := "dbt_models" }],
        { status := "success",
          models_built := ["dim_channels", "dim_dates", "fct_messages"],
          tests_passed := test_results.length - failures.length })
    else
      .error ("dbt transformation failed: dbt tests failed:\n" ++
        String.intercalate "\n" (failures.map (fun f => f.node_name ++ ": " ++ f.status)))

/-- Value of the non-raising path of run_yolo_enrichment (lines 246-285):
with a non-empty detector result list the op yields the yolo_detections
materialization and returns the success dict; with an empty list it yields
nothing and returns the skipped dict. -/
def yoloStep (results : List String) : List Materialization × YoloResult :=
  if results.isEmpty then
    ([], { status := "skipped", reason := some "No images found" })
  else
    ([{ asset_key := "yolo_detections" }],
      { status := "success", images_analyzed := some results.length })

/-- run_yolo_enrichment (lines 228-289). External behaviour: whether the
detector (or the follow-up dbt subprocess) raised, and the list of analyzed
images (their categories). -/
def run_yolo_enrichment (detector_error : Option String) (results : List String)
    (dbt_result : DbtResult) : Except String (List Materialization × YoloResult) :=
  match detector_error with
  | some e => .error ("YOLO enrichment failed: " ++ e)
  | none => .ok (yoloStep results)

/-- refresh_api_cache (lines 291-334). Any exception in the try body is
caught and converted to the failed dict (lines 327-334), so the op is total:
it never propagates a failure. On the failure path the materialization yield
at lines 312-319 is never reached, so no record is appended. -/
def refresh_api_cache (cache_error : Option String) (enrichment_result : YoloResult) :
    List Materialization × CacheResult :=
  match cache_error with
  | some e => ([], { status := "failed", error := some e })
  | none =>
    ([{ asset_key := "api_cache" }],
      { status := "success", cache_refreshed := some true })

/-- failures list computed at lines 349-357: the fatal-class components with
a non-success payload status; the cache payload is never consulted. -/
def pipelineFailures (scrape_result : ScrapeResult) (load_result : LoadResult)
    (dbt_result : DbtResult) (enrichment_result : YoloResult) : List String :=
  (if scrape_result.status != "success" then ["scraping"] else []) ++
  (if load_result.status != "success" then ["loading"] else []) ++
  (if dbt_result.status != "success" then ["dbt"] else []) ++
  (if !(["success", "skipped"].contains enrichment_result.status) then ["enrichment"] else [])

/-- severity chosen at lines 360-367: ERROR when the failures list is
non-empty, INFO otherwise. No other severity value occurs in the source. -/
def notifSeverity (failures : List String) : String :=
  if failures.isEmpty then "INFO" else "ERROR"

/-- Position of an exception inside the try body of
send_pipeline_notification: before the materialization yield at line 375
(lines 344-374), or after it, in the summary build and summary-file write
(lines 387-416). In both cases the handler at lines 420-426 catches it, but
only a failure before the yield suppresses the Materialization Record. -/
inductive NotifyError where
  | beforeYield (msg : String)
  | afterYield (msg : String)
deriving DecidableEq, Repr

/-- Message carried by a notification-stage exception. -/
def NotifyError.message : NotifyError → String
  | .beforeYield msg => msg
  | .afterYield msg => msg

/-- send_pipeline_notification (lines 336-426). External behaviour: whether
anything in the try body raised, and whether it raised before or after the
materialization yield at line 375. On the normal path it yields the
pipeline_notification materialization carrying the severity and returns the
run summary whose status is "failed" when the failures list is non-empty and
"success" otherwise (line 391); on a raise it returns the
notification_failed dict (lines 420-426), with the record already emitted
when the raise came after the yield (such as from the summary-file write at
lines 408-414) and no record otherwise. -/
def send_pipeline_notification (notify_error : Option NotifyError)
    (cache_result : CacheResult)
    (scrape_result : ScrapeResult) (load_result : LoadResult)
    (dbt_result : DbtResult) (enrichment_result : YoloResult) :
    List Materialization × NotifyOutput :=
  match notify_error with
  | some (.beforeYield e) => ([], .notificationFailed e)
  | some (.afterYield e) =>
    let failures := pipelineFailures scrape_result load_result dbt_result enrichment_result
    ([{ asset_key := "pipeline_notification", severity := some (notifSeverity failures) }],
      .notificationFailed e)
  | none =>
    let failures := pipelineFailures scrape_result load_result dbt_result enrichment_result
    ([{ asset_key := "pipeline_notification", severity := some (notifSeverity failures) }],
      .summary {
        status := if failures.isEmpty then "success" else "failed",
        failures := failures,
        statistics := {
          messages_processed := load_result.rows_loaded,
          images_analyzed := enrichment_result.images_analyzed.getD 0,
          dbt_tests_passed := dbt_result.tests_passed },
        components := {
          scraping := scrape_result.status,
          loading := load_result.status,
          dbt := dbt_result.status,
          enrichment := enrichment_result.status,
          api_cache := cache_result.status } })

/-- Decide whether an op invocation succeeded. -/
def exceptIsOk {α : Type} : Except String α → Bool
  | .ok _ => true
  | .error _ => false

/-- Modelled from the spec: the Retry Executor loop. The loop itself is run
by the orchestration framework (the source only declares RetryPolicy
max_retries and delay values at lines 60, 122, 180, 231, 293), so it is
translated from the spec contract: invoke the callable, return the first
success, otherwise retry until the attempt budget is exhausted and return
the last failure. `retryGo f remaining k` runs attempts k, k+1, ... and
returns the total number of invocations made so far together with the final
result. Delays between attempts are real-time behaviour and are not
modelled. -/
def retryGo {α : Type} (f : Nat → Except String α) : Nat → Nat → Nat × Except String α
  | 0, k => (k, .error "retry budget exhausted")
  | remaining + 1, k =>
    match f k with
    | .ok a => (k + 1, .ok a)
    | .error e => if remaining = 0 then (k + 1, .error e) else retryGo f remaining (k + 1)

/-- Modelled from the spec: invoke a stage callable up to max_attempts
times; for a Dagster RetryPolicy with max_retries n, max_attempts is n + 1
(the initial call plus the retries). -/
def retryRun {α : Type} (max_attempts : Nat) (f : Nat → Except String α) :
    Nat × Except String α :=
  retryGo f max_attempts 0

/-- RetryPolicy declarations of the source, as (op name, max_retries) pairs:
lines 60, 122, 180, 231, 293; send_pipeline_notification declares no retry
policy, hence max_retries 0. -/
def pipelineRetryPolicies : List (String × Nat) :=
  [("scrape_telegram_data", 2),
   ("load_raw_to_postgres", 3),
   ("run_dbt_transformations", 2),
   ("run_yolo_enrichment", 2),
   ("refresh_api_cache", 1),
   ("send_pipeline_notification", 0)]

/-- External behaviour of one pipeline run: everything the six ops observe
from their collaborators. -/
structure World where
  scraper_error : Option String
  today_dir_exists : Bool
  json_file_count : Nat
  loader_error : Option String
  row_count : Nat
  dbt_error : Option String
  test_results : List DbtTestRes
  detector_error : Option String
  yolo_results : List String
  cache_error : Option String
  notify_error : Option NotifyError
deriving DecidableEq, Repr

deriving instance DecidableEq for Except

/-- Aggregated outcome of one run of medical_telegram_pipeline: the
Materialization Log entries in completion order, the final outcome of every
op (none = never ran because an upstream fatal failure aborted the chain),
and the attempt counts used. -/
structure PipelineResult where
  materializations : List Materialization
  scrape : Option (Except String ScrapeResult)
  load : Option (Except String LoadResult)
  dbt : Option (Except String DbtResult)
  enrichment : Option (Except String YoloResult)
  cache : Option CacheResult
  notification : Option NotifyOutput
  attempts : List (String × Nat)
deriving DecidableEq, Repr

/-- medical_telegram_pipeline (lines 429-471): the six ops in the linear
dependency order scrape, load, dbt, enrichment, cache, notification. The
first four raise on failure, so a failure there (after its retry budget) is
fatal and every later op never runs; the last two catch their own failures
and always return, so they are driven directly (their retry policies never
fire because the ops never raise). -/
def pipelineRun (w : World) : PipelineResult :=
  let scrapeStep := retryRun 3 (fun _ =>
    scrape_telegram_data w.scraper_error w.today_dir_exists w.json_file_count)
  match scrapeStep.2 with
  | .error e =>
    { materializations := [], scrape := some (.error e), load := none, dbt := none,
      enrichment := none, cache := none, notification := none,
      attempts := [("scrape_telegram_data", scrapeStep.1)] }
  | .ok (m1, scrape_result) =>
    let loadStep := retryRun 4 (fun _ =>
      load_raw_to_postgres w.loader_error w.row_count scrape_result)
    match loadStep.2 with
    | .error e =>
      { materializations := m1, scrape := some (.ok scrape_result),
        load := some (.error e), dbt := none, enrichment := none, cache := none,
        notification := none,
        attempts := [("scrape_telegram_data", scrapeStep.1),
          ("load_raw_to_postgres", loadStep.1)] }
    | .ok (m2, load_result) =>
      let dbtStep := retryRun 3 (fun _ =>
        run_dbt_transformations w.dbt_error w.test_results load_result)
      match dbtStep.2 with
      | .error e =>
        { materializations := m1 ++ m2, scrape := some (.ok scrape_result),
          load := some (.ok load_result), dbt := some (.error e), enrichment := none,
          cache := none, notification := none,
          attempts := [("scrape_telegram_data", scrapeStep.1),
            ("load_raw_to_postgres", loadStep.1),
            ("run_dbt_transformations", dbtStep.1)] }
      | .ok (m3, dbt_result) =>
        let enrichStep := retryRun 3 (fun _ =>
          run_yolo_enrichment w.detector_error w.yolo_results dbt_result)
        match enrichStep.2 with
        | .error e =>
          { materializations := m1 ++ m2 ++ m3, scrape := some (.ok scrape_result),
            load := some (.ok load_result), dbt := some (.ok dbt_result),
            enrichment := some (.error e), cache := none, notification := none,
            attempts := [("scrape_telegram_data", scrapeStep.1),
              ("load_raw_to_postgres", loadStep.1),
              ("run_dbt_transformations", dbtStep.1),
              ("run_yolo_enrichment", enrichStep.1)] }
        | .ok (m4, enrichment_result) =>
          let cacheStep := refresh_api_cache w.cache_error enrichment_result
          let notifyStep := send_pipeline_notification w.notify_error cacheStep.2
            scrape_result load_result dbt_result enrichment_result
          { materializations := m1 ++ m2 ++ m3 ++ m4 ++ cacheStep.1 ++ notifyStep.1,
            scrape := some (.ok scrape_result), load := some (.ok load_result),
            dbt := some (.ok dbt_result), enrichment := some (.ok enrichment_result),
            cache := some cacheStep.2, notification := some notifyStep.2,
            attempts := [("scrape_telegram_data", scrapeStep.1),
              ("load_raw_to_postgres", loadStep.1),
              ("run_dbt_transformations", dbtStep.1),
              ("run_yolo_enrichment", enrichStep.1),
              ("refresh_api_cache", 1),
              ("send_pipeline_notification", 1)] }

/-- An op outcome that is a fatal (raised) failure. -/
def stageErrored {α : Type} : Option (Except String α) → Bool
  | some (.error _) => true
  | _ => false

/-- True when some fatal-class op of the run raised. -/
def PipelineResult.anyFatal (r : PipelineResult) : Bool :=
  stageErrored r.scrape || stageErrored r.load || stageErrored r.dbt ||
    stageErrored r.enrichment

/-- Dagster run-level outcome (result.success at line 597): the run fails
exactly when an op raised; the two auxiliary ops never raise. -/
def PipelineResult.success (r : PipelineResult) : Bool := !r.anyFatal

/-- True when every op of the linear chain produced an outcome. -/
def PipelineResult.allStagesRan (r : PipelineResult) : Bool :=
  r.scrape.isSome && r.load.isSome && r.dbt.isSome && r.enrichment.isSome &&
  r.cache.isSome && r.notification.isSome

/-- Status of a produced notify output, when it is a run summary. -/
def notifySummaryStatus : NotifyOutput → Option String
  | .summary s => some s.status
  | .notificationFailed _ => none

/-- Status recorded in the run summary of a run, when one was recorded. -/
def PipelineResult.summaryStatus (r : PipelineResult) : Option String :=
  match r.notification with
  | some o => notifySummaryStatus o
  | none => none

/-- scrape op config overrides a run request may carry (lines 483-492 and
501-515). -/
structure ScrapeConfig where
  days_back : Nat
  run_date : Option String := none
  full_refresh : Bool := false
deriving DecidableEq, Repr

/-- enrichment op config override: max_images none means no limit. -/
structure YoloConfig where
  max_images : Option Nat
deriving DecidableEq, Repr

/-- Run config overrides produced by a schedule fire. -/
structure RunConfig where
  scrape_telegram_data : ScrapeConfig
  run_yolo_enrichment : Option YoloConfig := none
deriving DecidableEq, Repr

/-- daily_pipeline_schedule (lines 474-492): fired at an execution time
whose date is run_date, it overrides the scrape op with days_back 1 and that
run date. -/
def daily_pipeline_schedule (run_date : String) : RunConfig :=
  { scrape_telegram_data := { days_back := 1, run_date := some run_date } }

/-- weekly_full_pipeline_schedule (lines 494-515): overrides the scrape op
with days_back 7 and full_refresh, and the enrichment op with max_images
None (no limit). -/
def weekly_full_pipeline_schedule : RunConfig :=
  { scrape_telegram_data := { days_back := 7, full_refresh := true },
    run_yolo_enrichment := some { max_images := none } }

/-- One entry of the glob over data/raw/telegram_messages as the sensor
observes it: its name, whether it is a directory, and the names of the
*.json files inside it. -/
structure PartitionEntry where
  name : String
  is_dir : Bool
  json_files : List String
deriving DecidableEq, Repr

/-- cursor resolution at line 524: context.cursor or "1970-01-01"; the
Python or also replaces an empty string. -/
def resolveCursor : Option String → String
  | none => "1970-01-01"
  | some s => if s = "" then "1970-01-01" else s

/-- Python string comparison: strict lexicographic order on the code point
sequences, which is how the sensor compares directory names against the
cursor at line 528. -/
def strLtB (a b : String) : Bool := decide (a.data < b.data)

lemma strLtB_iff (a b : String) : strLtB a b = true ↔ a < b := by
  rw [strLtB, decide_eq_true_iff]
  exact String.lt_iff_toList_lt.symm

/-- new_files accumulation of lines 526-530: for every directory entry whose
name is strictly greater than the cursor, all its json files, tagged with
the parent directory name. -/
def sensorNewFiles (entries : List PartitionEntry) (cursor : String) :
    List (String × String) :=
  match entries with
  | [] => []
  | d :: rest =>
    (if d.is_dir && strLtB cursor d.name then
      d.json_files.map (fun f => (d.name, f))
    else []) ++ sensorNewFiles rest cursor

/-- Python two-argument max: the second argument replaces the running
maximum exactly when it is strictly greater. -/
def pyMaxStr (m y : String) : String := if strLtB m y then y else m

/-- Python max over a non-empty list of strings, folding pyMaxStr from the
head (empty-list value is never used). -/
def listMaxStr : List String → String
  | [] => ""
  | x :: xs => xs.foldl pyMaxStr x

/-- latest_date of line 534: the maximum parent-directory name over the
collected new files. -/
def sensorLatest (entries : List PartitionEntry) (cursor : String) : String :=
  listMaxStr ((sensorNewFiles entries cursor).map Prod.fst)

/-- new_data_sensor (lines 518-551). Returns (emitted run request key,
cursor update): with no new files nothing is emitted and the cursor is left
untouched; otherwise exactly one run request keyed new_data_ plus the latest
date is emitted and the cursor is then updated to that date. -/
def new_data_sensor (entries : List PartitionEntry) (cursor : Option String) :
    Option String × Option String :=
  let c := resolveCursor cursor
  let new_files := sensorNewFiles entries c
  if new_files.isEmpty then (none, none)
  else
    let latest_date := sensorLatest entries c
    (some ("new_data_" ++ latest_date), some latest_date)

/-- A run in which every external collaborator behaves: the scraper writes
files, the loader reports rows, every dbt test passes, the detector analyzes
two images, cache refresh and notification succeed. -/
def happyWorld : World :=
  { scraper_error := none, today_dir_exists := true, json_file_count := 3,
    loader_error := none, row_count := 120, dbt_error := none,
    test_results := [{ node_name := "not_null_fct_messages_id", status := "pass" }],
    detector_error := none, yolo_results := ["medical_products", "promotional"],
    cache_error := none, notify_error := none }

/-- Same run except that the cache refresh raises. -/
def cacheFailWorld : World := { happyWorld with cache_error := some "redis connection refused" }

/-- Same run except that the detector finds no images. -/
def noImagesWorld : World := { happyWorld with yolo_results := [] }

/-- Same run except that one dbt test fails. -/
def dbtFailWorld : World :=
  { happyWorld with
    test_results := [{ node_name := "unique_fct_messages_id", status := "fail" }] }

lemma retryRun_three_ok {α : Type} (a : α) :
    retryRun 3 (fun _ => Except.ok a) = (1, Except.ok a) := rfl

lemma retryRun_four_ok {α : Type} (a : α) :
    retryRun 4 (fun _ => Except.ok a) = (1, Except.ok a) := rfl

lemma retryRun_three_error {α : Type} (e : String) :
    retryRun 3 (fun _ => (Except.error e : Except String α)) = (3, Except.error e) := rfl

lemma filter_pass_eq_nil (ts : List DbtTestRes) (h : ∀ t ∈ ts, t.status = "pass") :
    ts.filter (fun r => r.status != "pass") = [] := by
  rw [List.filter_eq_nil_iff]
  intro a ha
  simp [h a ha]

lemma pipelineRun_happy (w : World)
    (h1 : w.scraper_error = none) (h2 : w.today_dir_exists = true)
    (h3 : w.loader_error = none) (h4 : w.dbt_error = none)
    (h5 : ∀ t ∈ w.test_results, t.status = "pass")
    (h6 : w.detector_error = none) :
    pipelineRun w =
      { materializations :=
          [{ asset_key := "telegram_raw_data" }, { asset_key := "postgres_raw_data" },
            { asset_key := "dbt_models" }] ++ (yoloStep w.yolo_results).1 ++
          (refresh_api_cache w.cache_error (yoloStep w.yolo_results).2).1 ++
          (send_pipeline_notification w.notify_error
              (refresh_api_cache w.cache_error (yoloStep w.yolo_results).2).2
              { status := "success", files_created := w.json_file_count }
              { status := "success", rows_loaded := w.row_count,
                table := "raw.telegram_messages" }
              { status := "success",
                models_built := ["dim_channels", "dim_dates", "fct_messages"],
                tests_passed := w.test_results.length }
              (yoloStep w.yolo_results).2).1,
        scrape := some (.ok { status := "success", files_created := w.json_file_count }),
        load := some (.ok
          { status := "success", rows_loaded := w.row_count,
            table := "raw.telegram_messages" }),
        dbt := some (.ok
          { status := "success",
            models_built := ["dim_channels", "dim_dates", "fct_messages"],
            tests_passed := w.test_results.length }),
        enrichment := some (.ok (yoloStep w.yolo_results).2),
        cache := some (refresh_api_cache w.cache_error (yoloStep w.yolo_results).2).2,
        notification := some (send_pipeline_notification w.notify_error
          (refresh_api_cache w.cache_error (yoloStep w.yolo_results).2).2
          { status := "success", files_created := w.json_file_count }
          { status := "success", rows_loaded := w.row_count,
            table := "raw.telegram_messages" }
          { status := "success",
            models_built := ["dim_channels", "dim_dates", "fct_messages"],
            tests_passed := w.test_results.length }
          (yoloStep w.yolo_results).2).2,
        attempts := [("scrape_telegram_data", 1), ("load_raw_to_postgres", 1),
          ("run_dbt_transformations", 1), ("run_yolo_enrichment", 1),
          ("refresh_api_cache", 1), ("send_pipeline_notification", 1)] } := by
  have hfilter := filter_pass_eq_nil w.test_results h5
  rcases hY : yoloStep w.yolo_results with ⟨m4, er⟩
  simp only [pipelineRun, scrape_telegram_data, load_raw_to_postgres,
    run_dbt_transformations, run_yolo_enrichment, h1, h2, h3, h4, h6, hfilter, hY,
    if_true, List.isEmpty_nil, List.length_nil, Nat.sub_zero,
    retryRun_three_ok, retryRun_four_ok]
  simp [List.append_assoc]

lemma retryGo_first_ok {α : Type} (f : Nat → Except String α) (n k : Nat) (a : α)
    (h : f k = .ok a) : retryGo f (n + 1) k = (k + 1, .ok a) := by
  simp [retryGo, h]

lemma retryGo_all_fail {α : Type} (f : Nat → Except String α) :
    ∀ n k, n ≠ 0 → (∀ j, k ≤ j → j < k + n → exceptIsOk (f j) = false) →
      (retryGo f n k).1 = k + n ∧ exceptIsOk (retryGo f n k).2 = false := by
  intro n
  induction n with
  | zero => intro k h _; exact absurd rfl h
  | succ m ih =>
    intro k _ hfail
    have hk0 : exceptIsOk (f k) = false := hfail k le_rfl (by omega)
    rcases hfk : f k with e | a
    · by_cases hm : m = 0
      · subst hm
        simp [retryGo, hfk, exceptIsOk]
      · have hrec := ih (k + 1) hm (fun j hj1 hj2 => hfail j (by omega) (by omega))
        simp only [retryGo, hfk, hm, if_false]
        exact ⟨by rw [hrec.1]; omega, hrec.2⟩
    · rw [hfk] at hk0
      simp [exceptIsOk] at hk0

lemma sensorNewFiles_eq_nil (entries : List PartitionEntry) (c : String) :
    sensorNewFiles entries c = [] ↔
      ∀ d ∈ entries, d.is_dir = true → c < d.name → d.json_files = [] := by
  induction entries with
  | nil => simp [sensorNewFiles]
  | cons d rest ih =>
    simp only [sensorNewFiles, List.append_eq_nil, ih, List.forall_mem_cons]
    constructor
    · rintro ⟨h1, h2⟩
      refine ⟨?_, h2⟩
      intro hdir hlt
      rw [if_pos (by rw [hdir, Bool.true_and]; exact (strLtB_iff c d.name).mpr hlt)] at h1
      exact List.map_eq_nil_iff.mp h1
    · rintro ⟨h1, h2⟩
      refine ⟨?_, h2⟩
      by_cases hcond : d.is_dir && strLtB c d.name
      · rw [if_pos hcond]
        rw [Bool.and_eq_true] at hcond
        rw [h1 hcond.1 ((strLtB_iff c d.name).mp hcond.2)]
        rfl
      · rw [if_neg hcond]

lemma mem_sensorNewFiles_fst (entries : List PartitionEntry) (c : String) (x : String) :
    x ∈ (sensorNewFiles entries c).map Prod.fst ↔
      ∃ d ∈ entries, d.is_dir = true ∧ c < d.name ∧ d.json_files ≠ [] ∧ d.name = x := by
  induction entries with
  | nil => simp [sensorNewFiles]
  | cons d rest ih =>
    simp only [sensorNewFiles, List.map_append, List.mem_append, ih, List.mem_cons]
    constructor
    · rintro (hhead | htail)
      · by_cases hcond : d.is_dir && strLtB c d.name
        · rw [if_pos hcond, List.map_map] at hhead
          rw [Bool.and_eq_true] at hcond
          obtain ⟨f, hf, hfx⟩ := List.mem_map.mp hhead
          exact ⟨d, Or.inl rfl, hcond.1, (strLtB_iff c d.name).mp hcond.2,
            List.ne_nil_of_mem hf, hfx⟩
        · rw [if_neg hcond] at hhead
          simp at hhead
      · obtain ⟨d2, hd2, h2⟩ := htail
        exact ⟨d2, Or.inr hd2, h2⟩
    · rintro ⟨d2, hd2mem, hdir, hlt, hne, hname⟩
      rcases hd2mem with rfl | hd2mem
      · left
        rw [if_pos (by rw [hdir, Bool.true_and]; exact (strLtB_iff _ _).mpr hlt),
          List.map_map]
        obtain ⟨f, hf⟩ := List.exists_mem_of_ne_nil _ hne
        exact List.mem_map.mpr ⟨f, hf, hname⟩
      · right
        exact ⟨d2, hd2mem, hdir, hlt, hne, hname⟩

lemma pyMaxStr_left_le (m y : String) : m ≤ pyMaxStr m y := by
  by_cases h : strLtB m y
  · rw [pyMaxStr, if_pos h]
    exact le_of_lt ((strLtB_iff m y).mp h)
  · rw [pyMaxStr, if_neg h]

lemma pyMaxStr_right_le (m y : String) : y ≤ pyMaxStr m y := by
  by_cases h : strLtB m y
  · rw [pyMaxStr, if_pos h]
  · rw [pyMaxStr, if_neg h]
    exact le_of_not_lt (fun hc => h ((strLtB_iff m y).mpr hc))

lemma pyMaxStr_cases (m y : String) : pyMaxStr m y = m ∨ pyMaxStr m y = y := by
  by_cases h : strLtB m y
  · right; rw [pyMaxStr, if_pos h]
  · left; rw [pyMaxStr, if_neg h]

lemma foldl_pyMax_spec : ∀ (xs : List String) (m : String),
    (xs.foldl pyMaxStr m = m ∨ xs.foldl pyMaxStr m ∈ xs) ∧
    m ≤ xs.foldl pyMaxStr m ∧ ∀ x ∈ xs, x ≤ xs.foldl pyMaxStr m := by
  intro xs
  induction xs with
  | nil => intro m; exact ⟨Or.inl rfl, le_refl m, by simp⟩
  | cons y ys ih =>
    intro m
    have hm := ih (pyMaxStr m y)
    rw [List.foldl_cons]
    refine ⟨?_, ?_, ?_⟩
    · rcases hm.1 with he | hin
      · rcases pyMaxStr_cases m y with h | h
        · left; rw [he, h]
        · right; rw [he, h]; exact List.mem_cons_self y ys
      · right; exact List.mem_cons_of_mem y hin
    · exact le_trans (pyMaxStr_left_le m y) hm.2.1
    · intro x hx
      rcases List.mem_cons.mp hx with rfl | hx2
      · exact le_trans (pyMaxStr_right_le m x) hm.2.1
      · exact hm.2.2 x hx2

lemma listMaxStr_spec : ∀ (l : List String), l ≠ [] →
    listMaxStr l ∈ l ∧ ∀ x ∈ l, x ≤ listMaxStr l := by
  intro l
  cases l with
  | nil => intro h; exact absurd rfl h
  | cons x xs =>
    intro _
    have hs := foldl_pyMax_spec xs x
    refine ⟨?_, ?_⟩
    · rcases hs.1 with he | hin
      · rw [listMaxStr, he]
        exact List.mem_cons_self x xs
      · rw [listMaxStr]
        exact List.mem_cons_of_mem x hin
    · intro z hz
      rcases List.mem_cons.mp hz with rfl | hz2
      · rw [listMaxStr]
        exact hs.2.1
      · rw [listMaxStr]
        exact hs.2.2 z hz2

/-- C10: on a poll where every directory entry strictly greater than the
persisted cursor holds zero json files, the sensor emits no run request and
does not touch the cursor, so the same partitions are examined again from
the same cursor baseline on every later poll until a json file appears. -/
theorem sensor_no_json_no_request (entries : List PartitionEntry) (cursor : Option String)
    (h : ∀ d ∈ entries, d.is_dir = true → resolveCursor cursor < d.name →
        d.json_files = []) :
    new_data_sensor entries cursor = (none, none) := by
  have hnil : sensorNewFiles entries (resolveCursor cursor) = [] :=
    (sensorNewFiles_eq_nil entries (resolveCursor cursor)).mpr h
  simp [new_data_sensor, hnil]

/-- Witness for sensor_no_json_no_request: one empty directory beyond the
cursor, no request, no cursor update. -/
theorem sensor_no_json_no_request_witness :
    new_data_sensor [{ name := "2024-01-02", is_dir := true, json_files := [] }]
        (some "2023-12-31") = (none, none) :=
  sensor_no_json_no_request _ _ (by
    intro d hd _ _
    rw [List.mem_singleton] at hd
    rw [hd])

/-- C5 (amended): when at least one observed directory strictly greater than
the resolved cursor holds a json file, the sensor emits exactly one run
request (the return type allows at most one per poll), keyed by the maximum
name among such directories, and updates the cursor to that maximum, which
is strictly greater than the old cursor, so the cursor never regresses.
Directories beyond the cursor holding no json file do not count: they
neither trigger a request nor enter the maximum. -/
theorem sensor_new_partition_request (entries : List PartitionEntry) (cursor : Option String)
    (h : ∃ d ∈ entries, d.is_dir = true ∧ resolveCursor cursor < d.name ∧
        d.json_files ≠ []) :
    (new_data_sensor entries cursor).1 =
        some ("new_data_" ++ sensorLatest entries (resolveCursor cursor)) ∧
    (new_data_sensor entries cursor).2 = some (sensorLatest entries (resolveCursor cursor)) ∧
    (∃ d ∈ entries, d.is_dir = true ∧ resolveCursor cursor < d.name ∧ d.json_files ≠ [] ∧
        d.name = sensorLatest entries (resolveCursor cursor)) ∧
    (∀ d ∈ entries, d.is_dir = true → resolveCursor cursor < d.name → d.json_files ≠ [] →
        d.name ≤ sensorLatest entries (resolveCursor cursor)) ∧
    resolveCursor cursor < sensorLatest entries (resolveCursor cursor) := by
  obtain ⟨d0, hd0mem, hd0dir, hd0lt, hd0json⟩ := h
  have hne : sensorNewFiles entries (resolveCursor cursor) ≠ [] := by
    intro hnil
    exact hd0json ((sensorNewFiles_eq_nil entries (resolveCursor cursor)).mp hnil d0 hd0mem
      hd0dir hd0lt)
  have hmapne : (sensorNewFiles entries (resolveCursor cursor)).map Prod.fst ≠ [] := by
    intro hnil
    exact hne (List.map_eq_nil_iff.mp hnil)
  obtain ⟨hMmem, hMub⟩ := listMaxStr_spec _ hmapne
  have hM := (mem_sensorNewFiles_fst entries (resolveCursor cursor) _).mp hMmem
  have hEmpty : (sensorNewFiles entries (resolveCursor cursor)).isEmpty = false := by
    rcases hE : sensorNewFiles entries (resolveCursor cursor) with _ | ⟨p, ps⟩
    · exact absurd hE hne
    · rfl
  refine ⟨?_, ?_, ?_, ?_, ?_⟩
  · simp [new_data_sensor, hEmpty]
  · simp [new_data_sensor, hEmpty]
  · exact hM
  · intro d hdmem hdir hlt hjson
    exact hMub d.name ((mem_sensorNewFiles_fst entries (resolveCursor cursor) d.name).mpr
      ⟨d, hdmem, hdir, hlt, hjson, rfl⟩)
  · obtain ⟨dM, _, _, hltM, _, hnameM⟩ := hM
    show resolveCursor cursor <
      listMaxStr ((sensorNewFiles entries (resolveCursor cursor)).map Prod.fst)
    rw [← hnameM]
    exact hltM

/-- Observed directory entries used as the sensor witness. -/
def sensorEntriesEx : List PartitionEntry :=
  [{ name := "2024-01-01", is_dir := true, json_files := ["channel_a.json"] },
   { name := "2024-01-02", is_dir := true, json_files := ["channel_b.json"] }]

/-- Witness for sensor_new_partition_request at the partitions and cursor of
the spec example: one request keyed new_data_2024-01-02 and the cursor
updated to 2024-01-02. -/
theorem sensor_new_partition_request_witness :
    (new_data_sensor sensorEntriesEx (some "2023-12-31")).1 = some "new_data_2024-01-02" ∧
    (new_data_sensor sensorEntriesEx (some "2023-12-31")).2 = some "2024-01-02" := by
  have h := sensor_new_partition_request sensorEntriesEx (some "2023-12-31")
    ⟨{ name := "2024-01-02", is_dir := true, json_files := ["channel_b.json"] },
      by rw [sensorEntriesEx]; exact List.mem_cons_of_mem _ (List.mem_singleton.mpr rfl),
      rfl, (strLtB_iff _ _).mp rfl, by simp⟩
  have hL : sensorLatest sensorEntriesEx (resolveCursor (some "2023-12-31")) =
      "2024-01-02" := rfl
  exact ⟨by rw [h.1, hL]; rfl, by rw [h.2.1, hL]⟩

/-- C5 counterexample: a directory entry strictly greater than the cursor is
observed but holds no json file; as written the claim demands one run
request keyed by that maximum new partition, yet the sensor emits nothing
and leaves the cursor alone, and with a second lesser non-empty directory
the emitted key is that lesser name, not the maximum observed partition. -/
theorem sensor_new_partition_request_counterexample :
    resolveCursor (some "2024-01-15") < "2024-02-01" ∧
    new_data_sensor [{ name := "2024-02-01", is_dir := true, json_files := [] }]
        (some "2024-01-15") = (none, none) ∧
    new_data_sensor
        [{ name := "2024-01-20", is_dir := true, json_files := ["channel_a.json"] },
         { name := "2024-02-01", is_dir := true, json_files := [] }]
        (some "2024-01-15") = (some "new_data_2024-01-20", some "2024-01-20") := by
  refine ⟨(strLtB_iff _ _).mp rfl, rfl, rfl⟩

/-- C4: for every stage of the pipeline with a declared retry policy, the
retry executor invokes the callable exactly max_attempts = max_retries + 1
times when every attempt fails, producing a failed outcome, and exactly once
when the first attempt succeeds, returning that result. -/
theorem retry_executor_attempt_counts (p : String × Nat)
    (hp : p ∈ pipelineRetryPolicies) (f : Nat → Except String Nat) :
    ((∀ j, j < p.2 + 1 → exceptIsOk (f j) = false) →
        (retryRun (p.2 + 1) f).1 = p.2 + 1 ∧
        exceptIsOk (retryRun (p.2 + 1) f).2 = false) ∧
    (∀ a, f 0 = .ok a → retryRun (p.2 + 1) f = (1, .ok a)) := by
  constructor
  · intro hfail
    have h := retryGo_all_fail f (p.2 + 1) 0 (Nat.succ_ne_zero _)
      (fun j _ hj2 => hfail j (by omega))
    refine ⟨?_, ?_⟩
    · simp only [retryRun]
      rw [h.1]
      omega
    · simp only [retryRun]
      exact h.2
  · intro a ha
    simp only [retryRun]
    rw [retryGo_first_ok f p.2 0 a ha]

/-- Witness for retry_executor_attempt_counts at the scrape stage policy
(max_retries 2, so 3 attempts): an always-failing callable is invoked 3
times, a first-attempt success is invoked once. -/
theorem retry_executor_attempt_counts_witness :
    (retryRun 3 (fun _ => (Except.error "rate limited" : Except String Nat))).1 = 3 ∧
    retryRun 3 (fun _ => (Except.ok 7 : Except String Nat)) = (1, Except.ok 7) := by
  have h := retry_executor_attempt_counts ("scrape_telegram_data", 2) (by decide)
  exact ⟨((h (fun _ => Except.error "rate limited")).1 (fun j hj => rfl)).1,
    (h (fun _ => Except.ok 7)).2 7 rfl⟩

/-- Example payloads used by witnesses, matching the shapes the ops return. -/
def scrapePayloadEx : ScrapeResult := { status := "success", files_created := 3 }

/-- Loader success payload example. -/
def loadPayloadEx : LoadResult :=
  { status := "success", rows_loaded := 120, table := "raw.telegram_messages" }

/-- dbt success payload example. -/
def dbtPayloadEx : DbtResult :=
  { status := "success", models_built := ["dim_channels", "dim_dates", "fct_messages"],
    tests_passed := 1 }

/-- Detector success payload example. -/
def yoloPayloadEx : YoloResult := { status := "success", images_analyzed := some 2 }

/-- Failed cache payload example, as the exception handler produces it. -/
def cacheFailPayloadEx : CacheResult :=
  { status := "failed", error := some "redis connection refused" }

/-- C1 (amended): the status recorded in the run summary is computed from
the scraping, loading, dbt and enrichment payload statuses only — "failed"
when any of them is non-success (enrichment also accepts skipped), else
"success"; the cache-refresh payload is ignored and no PARTIALLY_FAILED
value exists, so a completed run whose only failure is the tolerated
cache-refresh stage records the same "success" status as a fully successful
run. -/
theorem run_summary_status_rule (cache_result : CacheResult) (scrape_result : ScrapeResult)
    (load_result : LoadResult) (dbt_result : DbtResult) (enrichment_result : YoloResult)
    (w : World)
    (h1 : w.scraper_error = none) (h2 : w.today_dir_exists = true)
    (h3 : w.loader_error = none) (h4 : w.dbt_error = none)
    (h5 : ∀ t ∈ w.test_results, t.status = "pass")
    (h6 : w.detector_error = none) (h7 : w.notify_error = none) :
    notifySummaryStatus (send_pipeline_notification none cache_result scrape_result
        load_result dbt_result enrichment_result).2 =
      some (if (pipelineFailures scrape_result load_result dbt_result
          enrichment_result).isEmpty then "success" else "failed") ∧
    (pipelineRun w).summaryStatus = some "success" := by
  constructor
  · rfl
  · rcases hE : w.yolo_results with _ | ⟨r, rs⟩ <;>
      simp [pipelineRun_happy w h1 h2 h3 h4 h5 h6, h7, hE, yoloStep,
        PipelineResult.summaryStatus, send_pipeline_notification, notifySummaryStatus,
        pipelineFailures, refresh_api_cache]

/-- C1 counterexample: in cacheFailWorld only the tolerated cache-refresh
stage fails (its payload is the failed dict), yet the recorded run summary
status is "success" — the same value as for the fully successful happyWorld
run — so the summary does not record FAILED or any PARTIALLY_FAILED value
for it. -/
theorem run_summary_status_counterexample :
    (pipelineRun cacheFailWorld).cache =
        some { status := "failed", error := some "redis connection refused" } ∧
    (pipelineRun cacheFailWorld).summaryStatus = some "success" ∧
    (pipelineRun happyWorld).summaryStatus = some "success" :=
  ⟨rfl, rfl, rfl⟩

/-- Witness for run_summary_status_rule at concrete payloads and the
cacheFailWorld run. -/
theorem run_summary_status_rule_witness :
    notifySummaryStatus (send_pipeline_notification none cacheFailPayloadEx scrapePayloadEx
        loadPayloadEx dbtPayloadEx yoloPayloadEx).2 =
      some (if (pipelineFailures scrapePayloadEx loadPayloadEx dbtPayloadEx
          yoloPayloadEx).isEmpty then "success" else "failed") ∧
    (pipelineRun cacheFailWorld).summaryStatus = some "success" :=
  run_summary_status_rule cacheFailPayloadEx scrapePayloadEx loadPayloadEx dbtPayloadEx
    yoloPayloadEx cacheFailWorld rfl rfl rfl rfl (by decide) rfl rfl

/-- C2 (amended): when the collector, loader, transformer and notifier
succeed and the detector succeeds with a non-empty result list, the summary
status is "success" and the Materialization Log holds exactly 6 records for
the run when the cache refresh also succeeds, and 5 when it fails. -/
theorem pipeline_full_success_materializations (w : World)
    (h1 : w.scraper_error = none) (h2 : w.today_dir_exists = true)
    (h3 : w.loader_error = none) (h4 : w.dbt_error = none)
    (h5 : ∀ t ∈ w.test_results, t.status = "pass")
    (h6 : w.detector_error = none)
    (h7 : w.yolo_results ≠ []) (h8 : w.notify_error = none) :
    (pipelineRun w).summaryStatus = some "success" ∧
    (pipelineRun w).materializations.length =
      (if w.cache_error = none then 6 else 5) := by
  rcases hE : w.yolo_results with _ | ⟨r, rs⟩
  · exact absurd hE h7
  constructor
  · simp [pipelineRun_happy w h1 h2 h3 h4 h5 h6, h8, hE, yoloStep,
      PipelineResult.summaryStatus, send_pipeline_notification, notifySummaryStatus,
      pipelineFailures, refresh_api_cache]
  · rcases hC : w.cache_error with _ | e <;>
      simp [pipelineRun_happy w h1 h2 h3 h4 h5 h6, h8, hE, hC, yoloStep,
        refresh_api_cache, send_pipeline_notification]

/-- C2 counterexample: in the fully successful happyWorld run every stage of
the claim succeeds (no fatal outcome, all stages ran, summary recorded
"success"), yet the Materialization Log holds 6 records for the run, not
5: telegram_raw_data, postgres_raw_data, dbt_models, yolo_detections,
api_cache and pipeline_notification. -/
theorem pipeline_five_records_counterexample :
    (pipelineRun happyWorld).allStagesRan = true ∧
    (pipelineRun happyWorld).anyFatal = false ∧
    (pipelineRun happyWorld).summaryStatus = some "success" ∧
    (pipelineRun happyWorld).materializations.length = 6 :=
  ⟨rfl, rfl, rfl, rfl⟩

/-- Witness for pipeline_full_success_materializations at happyWorld. -/
theorem pipeline_full_success_materializations_witness :
    (pipelineRun happyWorld).summaryStatus = some "success" ∧
    (pipelineRun happyWorld).materializations.length =
      (if happyWorld.cache_error = none then 6 else 5) :=
  pipeline_full_success_materializations happyWorld rfl rfl rfl rfl (by decide) rfl
    (by decide) rfl

/-- C3: in a run whose fatal-class stages succeed, a failure raised inside
the cache-refresh or the notification stage never aborts the run: the
failing auxiliary stage returns its tolerated failed payload instead of
propagating, every stage of the chain still executes, and the run-level
outcome stays successful. -/
theorem auxiliary_stage_failures_never_abort (w : World)
    (h1 : w.scraper_error = none) (h2 : w.today_dir_exists = true)
    (h3 : w.loader_error = none) (h4 : w.dbt_error = none)
    (h5 : ∀ t ∈ w.test_results, t.status = "pass")
    (h6 : w.detector_error = none) :
    (pipelineRun w).success = true ∧
    (pipelineRun w).allStagesRan = true ∧
    (∀ e, w.cache_error = some e →
        (pipelineRun w).cache = some { status := "failed", error := some e } ∧
        (pipelineRun w).notification.isSome = true) ∧
    (∀ e, w.notify_error = some e →
        (pipelineRun w).notification = some (.notificationFailed e.message)) := by
  refine ⟨?_, ?_, ?_, ?_⟩
  · simp [pipelineRun_happy w h1 h2 h3 h4 h5 h6, PipelineResult.success,
      PipelineResult.anyFatal, stageErrored]
  · simp [pipelineRun_happy w h1 h2 h3 h4 h5 h6, PipelineResult.allStagesRan]
  · intro e he
    constructor
    · simp [pipelineRun_happy w h1 h2 h3 h4 h5 h6, he, refresh_api_cache]
    · simp [pipelineRun_happy w h1 h2 h3 h4 h5 h6]
  · intro e he
    cases e with
    | beforeYield m =>
      simp [pipelineRun_happy w h1 h2 h3 h4 h5 h6, he, send_pipeline_notification,
        NotifyError.message]
    | afterYield m =>
      simp [pipelineRun_happy w h1 h2 h3 h4 h5 h6, he, send_pipeline_notification,
        NotifyError.message]

/-- Witness for auxiliary_stage_failures_never_abort at cacheFailWorld. -/
theorem auxiliary_stage_failures_never_abort_witness :
    (pipelineRun cacheFailWorld).success = true ∧
    (pipelineRun cacheFailWorld).cache =
      some { status := "failed", error := some "redis connection refused" } := by
  have h := auxiliary_stage_failures_never_abort cacheFailWorld rfl rfl rfl rfl
    (by decide) rfl
  exact ⟨h.1, (h.2.2.1 "redis connection refused" rfl).1⟩

/-- C6 (amended): exactly one Materialization Record is appended per
successfully completed stage outcome; a completed enrichment outcome with
the skipped payload and a completed cache-refresh outcome with the failed
payload append zero records; a completed notification outcome with the
notification_failed payload appends zero records when the exception arose
before the materialization yield and one record when it arose after the
yield (such as from the run-summary file write). -/
theorem materialization_per_stage_outcome :
    (∀ n, (scrape_telegram_data none true n).toOption.map (fun p => p.1.length) = some 1) ∧
    (∀ n s, (load_raw_to_postgres none n s).toOption.map (fun p => p.1.length) = some 1) ∧
    (∀ ts l, (∀ t ∈ ts, t.status = "pass") →
        (run_dbt_transformations none ts l).toOption.map (fun p => p.1.length) = some 1) ∧
    (∀ res d, res ≠ [] →
        (run_yolo_enrichment none res d).toOption.map
          (fun p => (p.1.length, p.2.status)) = some (1, "success")) ∧
    (∀ d, (run_yolo_enrichment none [] d).toOption.map
        (fun p => (p.1.length, p.2.status)) = some (0, "skipped")) ∧
    (∀ e er, (refresh_api_cache (some er) e).1.length = 0 ∧
        (refresh_api_cache (some er) e).2.status = "failed") ∧
    (∀ e, (refresh_api_cache none e).1.length = 1) ∧
    (∀ c s l d e, (send_pipeline_notification none c s l d e).1.length = 1) ∧
    (∀ er c s l d e,
        (send_pipeline_notification (some (.beforeYield er)) c s l d e).1.length = 0 ∧
        (send_pipeline_notification (some (.beforeYield er)) c s l d e).2 =
          .notificationFailed er) ∧
    (∀ er c s l d e,
        (send_pipeline_notification (some (.afterYield er)) c s l d e).1.length = 1 ∧
        (send_pipeline_notification (some (.afterYield er)) c s l d e).2 =
          .notificationFailed er) := by
  refine ⟨?_, ?_, ?_, ?_, ?_, ?_, ?_, ?_, ?_, ?_⟩
  · intro n; rfl
  · intro n s; rfl
  · intro ts l h
    simp [run_dbt_transformations, filter_pass_eq_nil ts h]
    exact ⟨_, ⟨_, rfl⟩, rfl⟩
  · intro res d h
    rcases res with _ | ⟨a, t⟩
    · exact absurd rfl h
    · rfl
  · intro d; rfl
  · intro e er; exact ⟨rfl, rfl⟩
  · intro e; rfl
  · intro c s l d e; rfl
  · intro er c s l d e; exact ⟨rfl, rfl⟩
  · intro er c s l d e; exact ⟨rfl, rfl⟩

/-- C6 counterexample: in noImagesWorld the enrichment stage completes (it
is not skipped by an upstream fatal failure) with the skipped payload, yet
zero Materialization Records are appended for it, so the run log holds only
5 records and none with the yolo_detections key. -/
theorem enrichment_skipped_zero_records_counterexample :
    (pipelineRun noImagesWorld).enrichment =
        some (.ok { status := "skipped", reason := some "No images found" }) ∧
    ((pipelineRun noImagesWorld).materializations.filter
        (fun m => m.asset_key == "yolo_detections")).length = 0 ∧
    (pipelineRun noImagesWorld).materializations.length = 5 :=
  ⟨rfl, rfl, rfl⟩

/-- Witness for materialization_per_stage_outcome at concrete inputs for the
hypothesised conjuncts, plus the two notification failure positions. -/
theorem materialization_per_stage_outcome_witness :
    (run_yolo_enrichment none [] dbtPayloadEx).toOption.map
        (fun p => (p.1.length, p.2.status)) = some (0, "skipped") ∧
    (run_yolo_enrichment none ["medical_products"] dbtPayloadEx).toOption.map
        (fun p => (p.1.length, p.2.status)) = some (1, "success") ∧
    (refresh_api_cache (some "redis connection refused") yoloPayloadEx).1.length = 0 ∧
    (run_dbt_transformations none [{ node_name := "n1", status := "pass" }]
        loadPayloadEx).toOption.map (fun p => p.1.length) = some 1 ∧
    (send_pipeline_notification (some (.beforeYield "slack timeout")) cacheFailPayloadEx
        scrapePayloadEx loadPayloadEx dbtPayloadEx yoloPayloadEx).1.length = 0 ∧
    (send_pipeline_notification (some (.afterYield "disk full")) cacheFailPayloadEx
        scrapePayloadEx loadPayloadEx dbtPayloadEx yoloPayloadEx).1.length = 1 := by
  refine ⟨materialization_per_stage_outcome.2.2.2.2.1 dbtPayloadEx,
    materialization_per_stage_outcome.2.2.2.1 ["medical_products"] dbtPayloadEx (by simp),
    (materialization_per_stage_outcome.2.2.2.2.2.1 yoloPayloadEx
      "redis connection refused").1,
    materialization_per_stage_outcome.2.2.1 [{ node_name := "n1", status := "pass" }]
      loadPayloadEx (by decide),
    (materialization_per_stage_outcome.2.2.2.2.2.2.2.2.1 "slack timeout"
      cacheFailPayloadEx scrapePayloadEx loadPayloadEx dbtPayloadEx yoloPayloadEx).1,
    (materialization_per_stage_outcome.2.2.2.2.2.2.2.2.2 "disk full"
      cacheFailPayloadEx scrapePayloadEx loadPayloadEx dbtPayloadEx yoloPayloadEx).1⟩

/-- C7: in a run whose collector and loader succeed and whose transformer
reports at least one non-passing test, the dbt stage raises, its error
escalates after the 3-attempt retry budget for its declared policy, the run
fails at the Dagster level, and the notification stage never runs. -/
theorem failed_dbt_test_fails_run (w : World)
    (h1 : w.scraper_error = none) (h2 : w.today_dir_exists = true)
    (h3 : w.loader_error = none) (h4 : w.dbt_error = none)
    (h5 : ∃ t ∈ w.test_results, t.status ≠ "pass") :
    stageErrored (pipelineRun w).dbt = true ∧
    (pipelineRun w).success = false ∧
    (pipelineRun w).notification = none ∧
    (pipelineRun w).attempts.lookup "run_dbt_transformations" = some 3 := by
  obtain ⟨t0, ht0mem, ht0⟩ := h5
  have hfail : (w.test_results.filter (fun r => r.status != "pass")).isEmpty = false := by
    rcases hF : w.test_results.filter (fun r => r.status != "pass") with _ | ⟨a, l⟩
    · exfalso
      have := List.filter_eq_nil_iff.mp hF t0 ht0mem
      simp at this
      exact ht0 this
    · rw [hF]
      rfl
  have hdbt : ∀ l, run_dbt_transformations w.dbt_error w.test_results l =
      .error ("dbt transformation failed: dbt tests failed:\n" ++
        String.intercalate "\n"
          ((w.test_results.filter (fun r => r.status != "pass")).map
            (fun f => f.node_name ++ ": " ++ f.status))) := by
    intro l
    rw [h4]
    simp [run_dbt_transformations, hfail]
  simp only [pipelineRun, scrape_telegram_data, load_raw_to_postgres, h1, h2, h3,
    if_true, retryRun_three_ok, retryRun_four_ok, hdbt, retryRun_three_error]
  simp [stageErrored, PipelineResult.success, PipelineResult.anyFatal, List.lookup]

/-- Witness for failed_dbt_test_fails_run at dbtFailWorld, whose single dbt
test reports status fail. -/
theorem failed_dbt_test_fails_run_witness :
    stageErrored (pipelineRun dbtFailWorld).dbt = true ∧
    (pipelineRun dbtFailWorld).success = false ∧
    (pipelineRun dbtFailWorld).notification = none ∧
    (pipelineRun dbtFailWorld).attempts.lookup "run_dbt_transformations" = some 3 :=
  failed_dbt_test_fails_run dbtFailWorld rfl rfl rfl rfl
    ⟨{ node_name := "unique_fct_messages_id", status := "fail" }, by decide, by decide⟩

/-- C8 (amended): for every invocation of the notifier, the severity in the
pipeline_notification Materialization Record is ERROR when the failures
list computed from the scraping, loading, dbt and enrichment payloads is
non-empty and INFO otherwise; WARN is never produced, and a run whose only
failure is the tolerated cache-refresh stage is reported INFO exactly like
a full success. -/
theorem notification_severity_rule (cache_result : CacheResult)
    (scrape_result : ScrapeResult) (load_result : LoadResult)
    (dbt_result : DbtResult) (enrichment_result : YoloResult) :
    (send_pipeline_notification none cache_result scrape_result load_result dbt_result
        enrichment_result).1 =
      [{ asset_key := "pipeline_notification",
         severity := some (if (pipelineFailures scrape_result load_result dbt_result
             enrichment_result).isEmpty then "INFO" else "ERROR") }] := by
  rfl

/-- C8 counterexample: the run where only the tolerated cache-refresh stage
failed is notified with severity INFO — identical to the fully successful
run — not WARN, and no stage outcome ever yields severity WARN. -/
theorem notification_severity_counterexample :
    (pipelineRun cacheFailWorld).cache =
        some { status := "failed", error := some "redis connection refused" } ∧
    (pipelineRun cacheFailWorld).materializations.filter
        (fun m => m.asset_key == "pipeline_notification") =
      [{ asset_key := "pipeline_notification", severity := some "INFO" }] ∧
    (pipelineRun happyWorld).materializations.filter
        (fun m => m.asset_key == "pipeline_notification") =
      [{ asset_key := "pipeline_notification", severity := some "INFO" }] :=
  ⟨rfl, rfl, rfl⟩

/-- C9: every fire of the daily schedule overrides the collection stage
with a 1-day lookback carrying the run date, and every fire of the weekly
schedule overrides it with a 7-day lookback and removes the enrichment item
cap by setting max_images to none. -/
theorem schedule_override_rule (run_date : String) :
    (daily_pipeline_schedule run_date).scrape_telegram_data.days_back = 1 ∧
    (daily_pipeline_schedule run_date).scrape_telegram_data.run_date = some run_date ∧
    weekly_full_pipeline_schedule.scrape_telegram_data.days_back = 7 ∧
    weekly_full_pipeline_schedule.run_yolo_enrichment = some { max_images := none } :=
  ⟨rfl, rfl, rfl, rfl⟩
